import Mathlib

/-!
Shallow embedding of the `cancellable-timer` crate (`src/lib.rs`).

The crate exposes a `Timer` with a cancellable `sleep`, a cloneable
`Canceller`, and a delayed-callback helper `Timer::after`.  The pure
decision logic of `Timer::sleep`, `Timer::new2` and `Timer::after` is
embedded directly from the source, with the fallible OS steps
(`Poll::new`, `poll.register`, `poll.poll`, thread spawning) supplied by
the environment as explicit outcomes.  The mio readiness channel
(`Registration` / `SetReadiness`) is not part of this repository, so its
observable behaviour is modelled from the spec where a claim depends on
it (latched readiness, graceful failure after the read side is dropped).
-/

namespace CancellableTimer

/-- Time span handed to `poll`; `std::time::Duration` abstracted to a
natural number (the code never inspects it, it only passes it through). -/
abbrev Duration := Nat

/-- `mio::Token` wraps a `usize`. -/
structure Token where
  val : Nat
deriving DecidableEq, Repr

/-- The error kinds this crate distinguishes: `ErrorKind::Interrupted`
(used for cancellation) versus every other OS-level kind. -/
inductive ErrorKind where
  | interrupted
  | osOther (code : Nat)
deriving DecidableEq, Repr

/-- `std::io::Error`, abstracted to its kind and message. -/
structure IOError where
  kind : ErrorKind
  msg : String
deriving DecidableEq, Repr

/-- A polled readiness event; only its token is ever inspected. -/
structure Event where
  token : Token
deriving DecidableEq, Repr

/-- One latched readiness channel (`Registration` / `SetReadiness` pair).
`ready` is the latched readiness flag; `readSideAlive` records whether the
`Timer` owning the read side (registration and poll) still exists. -/
structure Channel where
  ready : Bool
  readSideAlive : Bool
deriving DecidableEq, Repr

/-- The in-process state the claims range over: an allocator of readiness
channels.  `next` is the next fresh channel id, `channels` the state of
every channel. -/
structure World where
  next : Nat
  channels : Nat → Channel

/-- `Timer`: registered token, event-buffer capacity, and the id of the
channel whose read side it owns (`poll` + `_registration`). -/
structure Timer where
  token : Token
  eventsCapacity : Nat
  chan : Nat
deriving DecidableEq, Repr

/-- `Canceller`: a handle to the write side (`set_readiness`) of a channel. -/
structure Canceller where
  setReadiness : Nat
deriving DecidableEq, Repr

/-- Replace channel `i` of the world. -/
def World.setChan (w : World) (i : Nat) (ch : Channel) : World :=
  ⟨w.next, Function.update w.channels i ch⟩

/-- The `for event in self.events.iter()` loop of `Timer::sleep`: returns
`Err(io::Error::new(ErrorKind::Interrupted, "timer cancelled"))` at the
first event whose token equals the timer's token, `Ok(())` otherwise. -/
def sleepScan (tok : Token) : List Event → Except IOError Unit
  | [] => Except.ok ()
  | e :: rest =>
    if e.token = tok then
      Except.error (IOError.mk ErrorKind.interrupted "timer cancelled")
    else
      sleepScan tok rest

/-- `Timer::sleep`, with the outcome of `self.poll.poll(&mut self.events,
Some(duration))` supplied by the environment: `?` propagates a poll error
unchanged, otherwise the filled event buffer is scanned for the token. -/
def Timer.sleep (tok : Token) (pollOutcome : Except IOError (List Event)) :
    Except IOError Unit :=
  match pollOutcome with
  | Except.error e => Except.error e
  | Except.ok events => sleepScan tok events

/-- The error `Timer::sleep` constructs on cancellation. -/
def cancelledError : IOError :=
  IOError.mk ErrorKind.interrupted "timer cancelled"

/-- Modelled from the spec: `ReadSide.wait(timeout)` of the readiness
channel (mio's poll of a `Registration`, not in this repository).  If the
channel is latched ready, the wait returns at once with one event carrying
the registered token; otherwise it blocks for the full timeout and returns
no events.  The wait never clears the latched flag.  Returns the poll
outcome together with the time the call blocked. -/
def pollSpec (ch : Channel) (tok : Token) (timeout : Duration) :
    Except IOError (List Event) × Duration :=
  if ch.ready then (Except.ok [Event.mk tok], 0) else (Except.ok [], timeout)

/-- `Timer::sleep` run against the spec-modelled channel wait: the poll
outcome is computed by `pollSpec` from the timer's channel.  Mutates only
the timer's private event buffer, so the world is unchanged; the second
component is the time the call blocked. -/
def Timer.sleepW (t : Timer) (w : World) (d : Duration) :
    Except IOError Unit × Duration :=
  let pr := pollSpec (w.channels t.chan) t.token d
  (Timer.sleep t.token pr.1, pr.2)

/-- The outcomes and blocking times of a sequence of `sleep` calls on one
timer (the world is unchanged by `sleepW`, so the calls are independent). -/
def sleepTrace (t : Timer) (w : World) (ds : List Duration) :
    List (Except IOError Unit × Duration) :=
  ds.map fun d => t.sleepW w d

/-- Modelled from the spec: `SetReadiness::set_readiness(Ready::readable())`
(mio internals, not in this repository).  Latches the channel ready and
reports success while the read side exists; once the `Timer` has been
dropped it fails gracefully with an error, leaving the world unchanged. -/
def SetReadiness.set (w : World) (i : Nat) : World × Except IOError Unit :=
  let ch := w.channels i
  if ch.readSideAlive then
    (w.setChan i { ch with ready := true }, Except.ok ())
  else
    (w, Except.error (IOError.mk (ErrorKind.osOther 9) "read side dropped"))

/-- `Canceller::cancel`: delegates to `set_readiness(Ready::readable())`. -/
def Canceller.cancel (c : Canceller) (w : World) : World × Except IOError Unit :=
  SetReadiness.set w c.setReadiness

/-- `#[derive(Clone)]` on `Canceller`: clones the `SetReadiness` handle,
which references the same underlying write side. -/
def Canceller.clone (c : Canceller) : Canceller :=
  Canceller.mk c.setReadiness

/-- `n` successive `cancel` calls through handle `c`: final world and the
list of the `n` results.  A concurrent execution of atomic `set_readiness`
calls interleaves as some such sequence. -/
def cancelN (c : Canceller) (w : World) : Nat → World × List (Except IOError Unit)
  | 0 => (w, [])
  | n + 1 =>
    let s := c.cancel w
    let r := cancelN c s.1 n
    (r.1, s.2 :: r.2)

/-- `Timer::new2`, with the two fallible OS steps supplied by the
environment: `pollNewErr` is the failure of `Poll::new()` (if any),
`registerErr` that of `poll.register(...)`.  On the success path a fresh
channel (not ready, read side alive) is allocated by
`Registration::new2()`, registered under `Token(0)`, and the pair is
returned with an event buffer of capacity 4.  A failing step makes `?`
return its error; a registration failure drops the just-created
registration, so that channel's read side dies. -/
def Timer.new2 (w : World) (pollNewErr registerErr : Option IOError) :
    World × Except IOError (Timer × Canceller) :=
  match pollNewErr with
  | some e => (w, Except.error e)
  | none =>
    let i := w.next
    let w1 : World := ⟨w.next + 1, Function.update w.channels i (Channel.mk false true)⟩
    match registerErr with
    | some e =>
      (w1.setChan i (Channel.mk false false), Except.error e)
    | none =>
      (w1, Except.ok (Timer.mk (Token.mk 0) 4 i, Canceller.mk i))

/-- Dropping the `Timer` drops its `poll` and `_registration`: the read
side of its channel is gone.  Modelled from the spec (lifecycle, spec 3). -/
def Timer.dropTimer (t : Timer) (w : World) : World :=
  w.setChan t.chan { w.channels t.chan with readSideAlive := false }

/-- `Timer::after`: builds a pair with `Timer::new2`, spawns a worker
thread running `callback(timer.sleep(wait))`, and returns the canceller.
`spawnErr` is the failure outcome of `thread::Builder::spawn`.  The second
component lists the callback invocations the worker performs (its
argument applied to `cb`); the worker is modelled as running to completion
against the post-construction world. -/
def Timer.after {α : Type} (cb : Except IOError Unit → α) (w : World)
    (pollNewErr registerErr spawnErr : Option IOError) (wait : Duration) :
    Except IOError Canceller × List α :=
  let n := Timer.new2 w pollNewErr registerErr
  match n.2 with
  | Except.error e => (Except.error e, [])
  | Except.ok tc =>
    match spawnErr with
    | some e => (Except.error e, [])
    | none => (Except.ok tc.2, [cb (Timer.sleepW tc.1 n.1 wait).1])

/-- A sample world with one live, not-yet-ready channel (id 0), as left by
a successful `Timer::new2` on the empty world. -/
def sampleWorld : World :=
  ⟨1, Function.update (fun _ => Channel.mk false false) 0 (Channel.mk false true)⟩

/-- The timer of the sample pair. -/
def sampleTimer : Timer :=
  Timer.mk (Token.mk 0) 4 0

/-- The canceller of the sample pair. -/
def sampleCanceller : Canceller :=
  Canceller.mk 0

/-- Closed form of the event-buffer scan: it cancels exactly when some
event carries the timer's token. -/
theorem sleepScan_eq (tok : Token) (events : List Event) :
    sleepScan tok events =
      if events.any (fun e => e.token = tok) then Except.error cancelledError
      else Except.ok () := by
  induction events with
  | nil => simp [sleepScan]
  | cons e rest ih =>
    by_cases h : e.token = tok
    · simp [sleepScan, h, cancelledError]
    · simp [sleepScan, h, ih]

/-- C2: for every call to `sleep(duration)`, if the poll succeeds and
returns no event carrying the timer's token, `sleep` returns `Ok(())`;
if the poll returns an event carrying the token, `sleep` returns the
cancellation error — regardless of the duration, so cancellation takes
precedence over the timeout within the same wait. -/
theorem sleep_outcome_mapping (tok : Token) (events : List Event) :
    ((∀ e ∈ events, e.token ≠ tok) →
      Timer.sleep tok (Except.ok events) = Except.ok ())
    ∧ ((∃ e ∈ events, e.token = tok) →
      Timer.sleep tok (Except.ok events) = Except.error cancelledError) := by
  constructor
  · intro h
    simp only [Timer.sleep, sleepScan_eq, List.any_eq_true, decide_eq_true_eq]
    rw [if_neg]
    rintro ⟨e, he, hte⟩
    exact h e he hte
  · rintro ⟨e, he, hte⟩
    simp only [Timer.sleep, sleepScan_eq, List.any_eq_true, decide_eq_true_eq]
    rw [if_pos ⟨e, he, hte⟩]

/-- Witness for C2 at concrete inputs: with registered token 0, a buffer
holding only a token-1 event elapses normally, a buffer holding a token-0
event reports cancellation. -/
theorem sleep_outcome_mapping_witness :
    (Timer.sleep (Token.mk 0) (Except.ok [Event.mk (Token.mk 1)]) = Except.ok ())
    ∧ (Timer.sleep (Token.mk 0) (Except.ok [Event.mk (Token.mk 0)])
        = Except.error cancelledError) :=
  ⟨(sleep_outcome_mapping (Token.mk 0) [Event.mk (Token.mk 1)]).1 (by decide),
   (sleep_outcome_mapping (Token.mk 0) [Event.mk (Token.mk 0)]).2
     ⟨Event.mk (Token.mk 0), by decide, rfl⟩⟩

/-- C4: if the poll call fails with an OS error, `sleep` returns that
error verbatim — no retry, no event inspection, no conversion into the
cancellation outcome or into normal completion. -/
theorem sleep_poll_error_propagated (tok : Token) (e : IOError) :
    Timer.sleep tok (Except.error e) = Except.error e :=
  rfl

/-- C9: when the poll succeeds and every returned event carries a token
different from the registered one, `sleep` returns `Ok(())` as if no
event had occurred; non-matching events are silently discarded. -/
theorem foreign_events_ignored (tok : Token) (events : List Event)
    (h : ∀ e ∈ events, e.token ≠ tok) :
    Timer.sleep tok (Except.ok events) = Except.ok () := by
  simp only [Timer.sleep, sleepScan_eq, List.any_eq_true, decide_eq_true_eq]
  rw [if_neg]
  rintro ⟨e, he, hte⟩
  exact h e he hte

/-- Witness for C9: two events with foreign tokens 1 and 2 against
registered token 0 yield normal completion. -/
theorem foreign_events_ignored_witness :
    (∀ e ∈ [Event.mk (Token.mk 1), Event.mk (Token.mk 2)], e.token ≠ Token.mk 0)
    ∧ Timer.sleep (Token.mk 0)
        (Except.ok [Event.mk (Token.mk 1), Event.mk (Token.mk 2)]) = Except.ok () :=
  ⟨by decide,
   foreign_events_ignored (Token.mk 0) [Event.mk (Token.mk 1), Event.mk (Token.mk 2)]
     (by decide)⟩

/-- C10: whenever `sleep` returns an error, that error is either the
freshly constructed `io::Error` of kind `Interrupted` with message
"timer cancelled" (the only error `sleep` itself constructs), or it is
the very error the poll call failed with. -/
theorem cancellation_error_shape (tok : Token)
    (po : Except IOError (List Event)) (err : IOError)
    (h : Timer.sleep tok po = Except.error err) :
    err = IOError.mk ErrorKind.interrupted "timer cancelled"
    ∨ po = Except.error err := by
  cases po with
  | error e =>
    right
    simpa [Timer.sleep] using h
  | ok events =>
    left
    rw [Timer.sleep, sleepScan_eq] at h
    by_cases hc : events.any fun e => e.token = tok
    · rw [if_pos hc] at h
      cases h
      rfl
    · rw [if_neg hc] at h
      cases h

/-- Witness for C10: a sleep that observes its own token reports exactly
the `Interrupted`/"timer cancelled" error. -/
theorem cancellation_error_shape_witness :
    (Timer.sleep (Token.mk 0) (Except.ok [Event.mk (Token.mk 0)])
        = Except.error cancelledError)
    ∧ (cancelledError = IOError.mk ErrorKind.interrupted "timer cancelled"
       ∨ Except.ok [Event.mk (Token.mk 0)] = Except.error cancelledError) :=
  ⟨rfl, cancellation_error_shape (Token.mk 0) (Except.ok [Event.mk (Token.mk 0)])
          cancelledError rfl⟩

/-- C1: for an associated `Timer`/`Canceller` pair, once `cancel()` has
returned success, every subsequent `sleep(d)` on that timer — for any
duration `d`, including 0 — returns the cancellation error having blocked
for 0 time: the channel stays latched ready, so no later sleep blocks
for `d` or completes normally. -/
theorem latched_cancellation (t : Timer) (c : Canceller) (w : World)
    (hA : t.chan = c.setReadiness)
    (hOk : (c.cancel w).2 = Except.ok ()) :
    ∀ ds : List Duration, ∀ r ∈ sleepTrace t (c.cancel w).1 ds,
      r = (Except.error cancelledError, 0) := by
  intro ds r hr
  rcases List.mem_map.mp hr with ⟨d, _, rfl⟩
  by_cases hAlive : (w.channels c.setReadiness).readSideAlive
  · have hready : ((c.cancel w).1.channels t.chan).ready = true := by
      simp [Canceller.cancel, SetReadiness.set, hAlive, World.setChan, hA,
        Function.update_same]
    simp [Timer.sleepW, pollSpec, hready, Timer.sleep, sleepScan, cancelledError]
  · exfalso
    simp [Canceller.cancel, SetReadiness.set, hAlive] at hOk

/-- Witness for C1: cancel the sample pair, then sleep for 5 and for 0 —
both calls return the cancellation error without blocking. -/
theorem latched_cancellation_witness :
    (sampleTimer.chan = sampleCanceller.setReadiness
      ∧ (sampleCanceller.cancel sampleWorld).2 = Except.ok ())
    ∧ ∀ r ∈ sleepTrace sampleTimer (sampleCanceller.cancel sampleWorld).1 [5, 0],
        r = (Except.error cancelledError, 0) :=
  ⟨⟨rfl, rfl⟩, latched_cancellation sampleTimer sampleCanceller sampleWorld rfl rfl [5, 0]⟩

/-- Cancelling a channel that is already latched ready (and whose read
side is alive) changes nothing and reports success. -/
theorem cancel_of_ready_alive (c : Canceller) (w : World)
    (h : w.channels c.setReadiness = Channel.mk true true) :
    c.cancel w = (w, Except.ok ()) := by
  obtain ⟨n, f⟩ := w
  simp only [Canceller.cancel, SetReadiness.set, World.setChan] at h ⊢
  rw [h]
  simp only [if_true]
  rw [← h, Function.update_eq_self]

/-- Iterated cancels on an already-ready live channel are all successful
no-ops. -/
theorem cancelN_of_ready_alive (c : Canceller) (w : World)
    (h : w.channels c.setReadiness = Channel.mk true true) (n : Nat) :
    cancelN c w n = (w, List.replicate n (Except.ok ())) := by
  induction n with
  | zero => simp [cancelN]
  | succ m ih =>
    simp [cancelN, cancel_of_ready_alive c w h, ih, List.replicate_succ]

/-- C3: for every `n ≥ 1`, calling `cancel()` `n` times on a live pair
leaves the world in the same state as calling it once, and every one of
the `n` calls returns success.  `set_readiness` is an atomic step, so a
concurrent execution of `n` cancels interleaves as this sequence. -/
theorem cancel_idempotent (c : Canceller) (w : World) (n : Nat)
    (hAlive : (w.channels c.setReadiness).readSideAlive = true) (hn : 1 ≤ n) :
    (cancelN c w n).1 = (c.cancel w).1
    ∧ ∀ r ∈ (cancelN c w n).2, r = Except.ok () := by
  obtain ⟨m, rfl⟩ := Nat.exists_eq_add_of_le hn
  rw [Nat.add_comm 1 m]
  have h2 : c.cancel w
      = (w.setChan c.setReadiness (Channel.mk true true), Except.ok ()) := by
    simp [Canceller.cancel, SetReadiness.set, hAlive]
  have h1 : (w.setChan c.setReadiness (Channel.mk true true)).channels
      c.setReadiness = Channel.mk true true := by
    simp [World.setChan, Function.update_same]
  have h3 : cancelN c w (m + 1)
      = (w.setChan c.setReadiness (Channel.mk true true),
         Except.ok () :: List.replicate m (Except.ok ())) := by
    simp [cancelN, h2,
      cancelN_of_ready_alive c (w.setChan c.setReadiness (Channel.mk true true)) h1 m]
  rw [h3, h2]
  refine ⟨rfl, ?_⟩
  intro r hr
  rcases List.mem_cons.mp hr with h | h
  · exact h
  · exact List.eq_of_mem_replicate h

/-- Witness for C3: three cancels on the sample pair reach the state of a
single cancel, and all three report success. -/
theorem cancel_idempotent_witness :
    ((sampleWorld.channels sampleCanceller.setReadiness).readSideAlive = true
      ∧ 1 ≤ 3)
    ∧ ((cancelN sampleCanceller sampleWorld 3).1
        = (sampleCanceller.cancel sampleWorld).1
      ∧ ∀ r ∈ (cancelN sampleCanceller sampleWorld 3).2, r = Except.ok ()) :=
  ⟨⟨rfl, by norm_num⟩,
   cancel_idempotent sampleCanceller sampleWorld 3 rfl (by norm_num)⟩

/-- C5: on the success path `Timer::new2` allocates a fresh channel (not
ready, read side alive), registers it under the fixed `Token(0)`, and
returns the associated pair (sharing that channel) with an event buffer
of capacity 4; it returns an error, and no pair, exactly when `Poll::new`
fails or the registration fails. -/
theorem new2_contract (w : World) :
    ((Timer.new2 w none none).2
        = Except.ok (Timer.mk (Token.mk 0) 4 w.next, Canceller.mk w.next)
      ∧ (Timer.new2 w none none).1.channels w.next = Channel.mk false true
      ∧ (Timer.new2 w none none).1.next = w.next + 1)
    ∧ (∀ e re, (Timer.new2 w (some e) re).2 = Except.error e)
    ∧ (∀ e, (Timer.new2 w none (some e)).2 = Except.error e) := by
  refine ⟨⟨rfl, ?_, rfl⟩, fun e re => rfl, fun e => rfl⟩
  simp [Timer.new2, Function.update_same]

/-- C6: `Timer::after` builds a fresh pair, hands the canceller back to
the caller, and the worker invokes the callback exactly once with the
outcome of `sleep(wait)`; if constructing the pair or spawning the
thread fails, `after` returns that error and the callback is never
invoked. -/
theorem after_contract {α : Type} (cb : Except IOError Unit → α) (w : World)
    (wait : Duration) :
    ((Timer.after cb w none none none wait).1 = Except.ok (Canceller.mk w.next)
      ∧ (Timer.after cb w none none none wait).2
          = [cb ((Timer.mk (Token.mk 0) 4 w.next).sleepW
                  (Timer.new2 w none none).1 wait).1])
    ∧ (∀ e re se, Timer.after cb w (some e) re se wait = (Except.error e, []))
    ∧ (∀ e se, Timer.after cb w none (some e) se wait = (Except.error e, []))
    ∧ (∀ e, Timer.after cb w none none (some e) wait = (Except.error e, [])) :=
  ⟨⟨rfl, rfl⟩, fun _ _ _ => rfl, fun _ _ => rfl, fun _ => rfl⟩

/-- C7: once the `Timer` has been dropped, `cancel()` through any
associated handle fails gracefully: it returns an error and leaves the
world unchanged (no silent success). -/
theorem cancel_after_drop (t : Timer) (c : Canceller) (w : World)
    (hA : t.chan = c.setReadiness) :
    (c.cancel (t.dropTimer w)).1 = t.dropTimer w
    ∧ (c.cancel (t.dropTimer w)).2
        = Except.error (IOError.mk (ErrorKind.osOther 9) "read side dropped") := by
  have h : ((t.dropTimer w).channels c.setReadiness).readSideAlive = false := by
    simp [Timer.dropTimer, World.setChan, hA, Function.update_same]
  constructor <;> simp [Canceller.cancel, SetReadiness.set, h]

/-- Witness for C7: dropping the sample timer makes a subsequent cancel
through the sample canceller fail without touching the world. -/
theorem cancel_after_drop_witness :
    (sampleTimer.chan = sampleCanceller.setReadiness)
    ∧ ((sampleCanceller.cancel (sampleTimer.dropTimer sampleWorld)).1
        = sampleTimer.dropTimer sampleWorld
      ∧ (sampleCanceller.cancel (sampleTimer.dropTimer sampleWorld)).2
        = Except.error (IOError.mk (ErrorKind.osOther 9) "read side dropped")) :=
  ⟨rfl, cancel_after_drop sampleTimer sampleCanceller sampleWorld rfl⟩

/-- C8: a cloned `Canceller` holds a handle to the same underlying write
side, and cancelling through the clone is the very same operation as
cancelling through the original — no handle has owner status. -/
theorem clone_cancel_equivalent (c : Canceller) (w : World) :
    c.clone.cancel w = c.cancel w ∧ c.clone.setReadiness = c.setReadiness :=
  ⟨rfl, rfl⟩

end CancellableTimer
